import Mathlib

/-!
Verification of the Optional/Result transform layer described by the
specification of effective_rust_examples, together with the two concrete
functions of the source that the claims mention (modify_all in 1.2 and
div in 1.2).  The container layer itself is the standard library of the
source language; only its call sites appear under src/, so the layer is
modelled from the contract in sections 4, 7 and 8 of the specification.
Fatal aborts (unwrap and expect on an empty container) are modelled with
Except String: an Except.error value stands for the unrecoverable abort,
carrying its diagnostic message.
-/

namespace EffRust

/-- Modelled from the spec: Optional T, a variant of Present(T) and Absent
(section 3).  The implementation used by the source is the standard
library of the language and is not part of the repository. -/
inductive Optional (α : Type) where
  | present (v : α)
  | absent
deriving DecidableEq

/-- Modelled from the spec: pure inspection, true exactly on Present. -/
def Optional.is_present {α : Type} : Optional α → Bool
  | .present _ => true
  | .absent => false

/-- Modelled from the spec: pure inspection, true exactly on Absent. -/
def Optional.is_absent {α : Type} : Optional α → Bool
  | .present _ => false
  | .absent => true

/-- Modelled from the spec: map applies f to a held value and rewraps;
on Absent it returns Absent without invoking f. -/
def Optional.map {α β : Type} (o : Optional α) (f : α → β) : Optional β :=
  match o with
  | .present v => .present (f v)
  | .absent => .absent

/-- Call-counting probe for Optional.map: the same case split as
Optional.map, with a counter recording how many times f is applied
(one application on the Present branch, none on the Absent branch,
exactly where Optional.map syntactically applies f). -/
def Optional.mapProbe {α β : Type} (o : Optional α) (f : α → β) :
    Optional β × Nat :=
  match o with
  | .present v => (.present (f v), 1)
  | .absent => (.absent, 0)

/-- Modelled from the spec: returns the held value if Present, else the
default; no failure condition. -/
def Optional.unwrap_or {α : Type} (o : Optional α) (d : α) : α :=
  match o with
  | .present v => v
  | .absent => d

/-- Modelled from the spec: unwrap returns the held value if Present and
fails fatally if Absent; the fatal abort is modelled as Except.error. -/
def Optional.unwrap {α : Type} (o : Optional α) : Except String α :=
  match o with
  | .present v => .ok v
  | .absent => .error "called unwrap on an absent value"

/-- Modelled from the spec: expect is unwrap with a caller-supplied
diagnostic message on the fatal path. -/
def Optional.expect {α : Type} (o : Optional α) (msg : String) :
    Except String α :=
  match o with
  | .present v => .ok v
  | .absent => .error msg

/-- Modelled from the spec: as_ref produces a non-owning view of the held
value; in this shallow embedding a reference to a value is rendered as
the value it designates, so the view rewraps the payload unchanged. -/
def Optional.as_ref {α : Type} (o : Optional α) : Optional α :=
  match o with
  | .present v => .present v
  | .absent => .absent

/-- Modelled from the spec: Result T E, a variant of Success(T) and
Failure(E) (section 3). -/
inductive Result (α ε : Type) where
  | success (v : α)
  | failure (e : ε)
deriving DecidableEq

/-- Modelled from the spec: map transforms the success payload and passes
Failure through unchanged. -/
def Result.map {α β ε : Type} (r : Result α ε) (f : α → β) : Result β ε :=
  match r with
  | .success v => .success (f v)
  | .failure e => .failure e

/-- Modelled from the spec: map_err transforms the failure payload and
passes Success through unchanged. -/
def Result.map_err {α ε η : Type} (r : Result α ε) (f : ε → η) :
    Result α η :=
  match r with
  | .success v => .success v
  | .failure e => .failure (f e)

/-- Modelled from the spec: unwrap on a Result, fatal abort on Failure,
same semantics as the Optional version. -/
def Result.unwrap {α ε : Type} (r : Result α ε) : Except String α :=
  match r with
  | .success v => .ok v
  | .failure _ => .error "called unwrap on a failure value"

/-- Modelled from the spec: expect on a Result, fatal abort carrying the
caller-supplied message on Failure. -/
def Result.expect {α ε : Type} (r : Result α ε) (msg : String) :
    Except String α :=
  match r with
  | .success v => .ok v
  | .failure _ => .error msg

/-- Modelled from the spec: the propagate-on-failure operator (section
4.2).  Given an intermediate Result whose error type converts via conv,
it yields the success value to the continuation k, and on Failure it
terminates the enclosing function, returning the converted failure. -/
def Result.qmark {α β ε η : Type} (r : Result α η) (conv : η → ε)
    (k : α → Result β ε) : Result β ε :=
  match r with
  | .success v => k v
  | .failure e => .failure (conv e)

/-- A three-step fallible pipeline chained with the propagate-on-failure
operator, generalising find_user in 1.3 lines 38 to 41: each step has its
own error type, converted into the enclosing error type by c1, c2, c3. -/
def pipeline3 {α β γ ε η1 η2 η3 : Type}
    (s1 : Result α η1) (s2 : α → Result β η2) (s3 : β → Result γ η3)
    (c1 : η1 → ε) (c2 : η2 → ε) (c3 : η3 → ε) : Result γ ε :=
  Result.qmark s1 c1 fun a =>
    Result.qmark (s2 a) c2 fun b =>
      Result.qmark (s3 b) c3 fun c => Result.success c

/-- Call-counting probe for pipeline3: the same control flow with the
qmark sequencing unfolded, and a counter recording how many times step 3
is invoked (incremented exactly where pipeline3 applies s3). -/
def pipeline3Probe {α β γ ε η1 η2 η3 : Type}
    (s1 : Result α η1) (s2 : α → Result β η2) (s3 : β → Result γ η3)
    (c1 : η1 → ε) (c2 : η2 → ε) (c3 : η3 → ε) : Result γ ε × Nat :=
  match s1 with
  | .failure e => (.failure (c1 e), 0)
  | .success a =>
    match s2 a with
    | .failure e => (.failure (c2 e), 0)
    | .success b =>
      (Result.qmark (s3 b) c3 fun c => Result.success c, 1)

/-- Unsigned 32-bit machine integers, the element type of modify_all. -/
abbrev U32 := Fin (2 ^ 32)

/-- Unsigned 8-bit machine integers, the byte type of InputData. -/
abbrev U8 := Fin (2 ^ 8)

/-- modify_all from 1.2 lines 77 to 84: walks the slice front to back and
overwrites each element with the mutator applied to its old value.  The
in-place loop over a mutable slice is rendered as structural recursion
producing the post-state of the slice; the mutator is a pure function. -/
def modify_all (data : List U32) (mutator : U32 → U32) : List U32 :=
  match data with
  | [] => []
  | v :: rest => mutator v :: modify_all rest mutator

/-- InputData from 1.3 lines 57 to 59: a struct holding an optional
byte-vector payload. -/
structure InputData where
  payload : Optional (List U8)
deriving DecidableEq

/-- InputData.encrypted from 1.3 lines 62 to 64:
encrypt(self.payload.as_ref().unwrap_or(&vec![])).  The free function
encrypt is not defined in the repository, so it is an explicit parameter;
the shared (read-only) receiver is made explicit by returning the struct
alongside the result, so the frame property is a statement about the
returned struct. -/
def InputData.encrypted (d : InputData) (encrypt : List U8 → List U8) :
    InputData × List U8 :=
  (d, encrypt ((d.payload.as_ref).unwrap_or []))

/-- A minimal shallow model of the source language's 64-bit float for div
in 1.2: a value is NaN or an exact number (the snippet only compares with
zero and divides, so rounding never has to be modelled). -/
inductive F64 where
  | nan
  | num (q : ℚ)
deriving DecidableEq

/-- Equality-with-zero test on the float model; NaN compares unequal to
every value, in particular to zero. -/
def F64.isZero : F64 → Bool
  | .num q => decide (q = 0)
  | .nan => false

/-- div from 1.2 lines 22 to 28, as intended: if y == 0.0 return NaN,
otherwise return the quotient.  The final expression of the source is
literally X / Y, two identifiers that are not in scope there (the lower
case parameters are x and y), so the source does not compile; this
definition reads it as the evident intent x / y.  Dividing by or into
NaN yields NaN. -/
def div (x y : F64) : F64 :=
  if y.isZero then .nan
  else
    match x, y with
    | .num a, .num b => .num (a / b)
    | _, _ => .nan

/-- Claim C1: the propagate-on-failure operator yields the success value
to the continuation, and in a three-step pipeline where step 1 succeeds
and step 2 fails, step 3 is never executed (the probe count is zero, and
the result does not depend on step 3) and the overall result is the
converted failure of step 2. -/
theorem C1_propagate_short_circuit {α β γ ε η1 η2 η3 : Type}
    (s1 : Result α η1) (s2 : α → Result β η2) (s3 : β → Result γ η3)
    (c1 : η1 → ε) (c2 : η2 → ε) (c3 : η3 → ε)
    (a : α) (e : η2) (h1 : s1 = .success a) (h2 : s2 a = .failure e) :
    (∀ (v : α) (conv : η1 → ε) (k : α → Result β ε),
        Result.qmark (Result.success v) conv k = k v) ∧
    pipeline3 s1 s2 s3 c1 c2 c3 = .failure (c2 e) ∧
    pipeline3Probe s1 s2 s3 c1 c2 c3 = (.failure (c2 e), 0) ∧
    (∀ t3 : β → Result γ η3,
        pipeline3 s1 s2 t3 c1 c2 c3 = .failure (c2 e)) := by
  subst h1
  refine ⟨fun v conv k => rfl, ?_, ?_, ?_⟩
  · simp [pipeline3, Result.qmark, h2]
  · simp [pipeline3Probe, h2]
  · intro t3
    simp [pipeline3, Result.qmark, h2]

/-- Witness for C1: a concrete three-step pipeline over Nat in which
step 2 fails with 7 and the error conversion adds one. -/
theorem C1_propagate_short_circuit_witness :
    pipeline3 (Result.success 1) (fun _ : Nat => Result.failure 7)
      (fun _ : Nat => Result.success (0 : Nat)) (fun n : Nat => n)
      (fun n => n + 1) (fun n : Nat => n) = Result.failure 8 ∧
    pipeline3Probe (Result.success 1) (fun _ : Nat => Result.failure 7)
      (fun _ : Nat => Result.success (0 : Nat)) (fun n : Nat => n)
      (fun n => n + 1) (fun n : Nat => n) = (Result.failure 8, 0) :=
  ⟨(C1_propagate_short_circuit _ _ _ _ _ _ 1 7 rfl rfl).2.1,
   (C1_propagate_short_circuit _ _ _ _ _ _ 1 7 rfl rfl).2.2.1⟩

/-- Claim C2: mapping over a present value then unwrapping gives the
mapped value, mapping over an absent value stays absent with the mapped
function never invoked (the probe count stays zero on the absent path),
and the probe computes exactly what map computes. -/
theorem C2_optional_map {α β : Type} (v : α) (f : α → β) :
    ((Optional.present v).map f).unwrap = Except.ok (f v) ∧
    ((Optional.absent : Optional α).map f).is_absent = true ∧
    Optional.mapProbe (Optional.absent : Optional α) f =
      (Optional.absent, 0) ∧
    (∀ o : Optional α, (Optional.mapProbe o f).1 = o.map f) := by
  refine ⟨rfl, rfl, rfl, ?_⟩
  intro o
  cases o <;> rfl

/-- Claim C3: Result.map transforms the success payload and is the
identity on a failure, leaving the error payload unchanged. -/
theorem C3_result_map {α β ε : Type} (v : α) (e : ε) (f : α → β) :
    (Result.success v : Result α ε).map f = Result.success (f v) ∧
    (Result.failure e : Result α ε).map f = Result.failure e :=
  ⟨rfl, rfl⟩

/-- Claim C4: map_err composes on the failure payload and passes a
success through unchanged. -/
theorem C4_map_err_compose {α ε η θ : Type} (v : α) (e : ε)
    (f : ε → η) (g : η → θ) :
    ((Result.failure e : Result α ε).map_err f).map_err g =
      Result.failure (g (f e)) ∧
    (Result.success v : Result α ε).map_err f = Result.success v :=
  ⟨rfl, rfl⟩

/-- Claim C5: wrapping then unwrapping preserves the value, for every
value of every type (the quantification over the type covers empty and
zero-valued element types as well). -/
theorem C5_present_unwrap_roundtrip {α : Type} (v : α) :
    (Optional.present v).unwrap = Except.ok v :=
  rfl

/-- Claim C6: unwrap_or is total, returning the default on absent and
the held value on present, with no failure condition on either branch. -/
theorem C6_unwrap_or_total {α : Type} (v d : α) :
    (Optional.absent : Optional α).unwrap_or d = d ∧
    (Optional.present v).unwrap_or d = v :=
  ⟨rfl, rfl⟩

/-- Claim C7: unwrap and expect are the only fatal paths: they return
the held value on present or success and abort (an Except.error) on
absent or failure; every other operation of the layer is total, given
by abort-free defining equations covering both variants of each
container. -/
theorem C7_fatal_paths {α β ε η : Type} (v : α) (e : ε) (d : α)
    (msg : String) (f : α → β) (g : ε → η) (conv : ε → η)
    (k : α → Result β η) :
    (Optional.present v).unwrap = Except.ok v ∧
    (Optional.present v).expect msg = Except.ok v ∧
    (∃ m, (Optional.absent : Optional α).unwrap = Except.error m) ∧
    (Optional.absent : Optional α).expect msg = Except.error msg ∧
    (Result.success v : Result α ε).unwrap = Except.ok v ∧
    (Result.success v : Result α ε).expect msg = Except.ok v ∧
    (∃ m, (Result.failure e : Result α ε).unwrap = Except.error m) ∧
    (Result.failure e : Result α ε).expect msg = Except.error msg ∧
    (Optional.present v).is_present = true ∧
    (Optional.absent : Optional α).is_present = false ∧
    (Optional.present v).is_absent = false ∧
    (Optional.absent : Optional α).is_absent = true ∧
    (Optional.present v).map f = Optional.present (f v) ∧
    (Optional.absent : Optional α).map f = Optional.absent ∧
    (Optional.present v).unwrap_or d = v ∧
    (Optional.absent : Optional α).unwrap_or d = d ∧
    (Optional.present v).as_ref = Optional.present v ∧
    (Optional.absent : Optional α).as_ref = Optional.absent ∧
    (Result.success v : Result α ε).map f = Result.success (f v) ∧
    (Result.failure e : Result α ε).map f = Result.failure e ∧
    (Result.success v : Result α ε).map_err g = Result.success v ∧
    (Result.failure e : Result α ε).map_err g = Result.failure (g e) ∧
    Result.qmark (Result.success v) conv k = k v ∧
    Result.qmark (Result.failure e) conv k = Result.failure (conv e) :=
  ⟨rfl, rfl, ⟨_, rfl⟩, rfl, rfl, rfl, ⟨_, rfl⟩, rfl, rfl, rfl, rfl, rfl,
   rfl, rfl, rfl, rfl, rfl, rfl, rfl, rfl, rfl, rfl, rfl, rfl⟩

/-- Claim C8: encrypted leaves the receiver, in particular its payload,
unchanged (as_ref is a non-owning view), and returns encrypt applied to
the payload bytes when present and to the empty byte vector when
absent. -/
theorem C8_as_ref_frame (d : InputData) (encrypt : List U8 → List U8) :
    (d.encrypted encrypt).1 = d ∧
    (d.encrypted encrypt).1.payload = d.payload ∧
    (∀ bs, d.payload = Optional.present bs →
        (d.encrypted encrypt).2 = encrypt bs) ∧
    (d.payload = Optional.absent → (d.encrypted encrypt).2 = encrypt []) := by
  refine ⟨rfl, rfl, ?_, ?_⟩
  · intro bs h
    simp [InputData.encrypted, h, Optional.as_ref, Optional.unwrap_or]
  · intro h
    simp [InputData.encrypted, h, Optional.as_ref, Optional.unwrap_or]

/-- Witness for C8: a concrete present payload and the absent payload,
both encrypted with List.reverse. -/
theorem C8_as_ref_frame_witness :
    ((InputData.mk (Optional.present [(⟨5, by norm_num⟩ : U8)])).encrypted
        List.reverse).2 = List.reverse [(⟨5, by norm_num⟩ : U8)] ∧
    ((InputData.mk Optional.absent).encrypted List.reverse).2 =
      List.reverse [] :=
  ⟨(C8_as_ref_frame _ _).2.2.1 _ rfl, (C8_as_ref_frame _ _).2.2.2 rfl⟩

/-- Claim C9: modify_all preserves the length of the slice and replaces
the element at every position by the mutator applied to the old element
at that position; positions beyond the length exist in neither the old
nor the new slice. -/
theorem C9_modify_all_pointwise (data : List U32) (m : U32 → U32) :
    (modify_all data m).length = data.length ∧
    (∀ i : Nat, (modify_all data m)[i]? = (data[i]?).map m) := by
  constructor
  · induction data with
    | nil => rfl
    | cons v rest ih => simp [modify_all, ih]
  · intro i
    induction data generalizing i with
    | nil => simp [modify_all]
    | cons v rest ih =>
      cases i with
      | zero => simp [modify_all]
      | succ j => simpa [modify_all] using ih j

/-- Claim C10 (supporting evidence): the zero-divisor guard of div
returns NaN for every dividend, and the intended nonzero branch (the
source literally contains X / Y with X and Y not in scope) would return
the quotient, here evaluated at the failing input div(6.0, 2.0) = 3.0. -/
theorem C10_div_guard :
    (∀ x : F64, div x (F64.num 0) = F64.nan) ∧
    div (F64.num 6) (F64.num 2) = F64.num 3 := by
  constructor
  · intro x
    cases x <;> simp [div, F64.isZero]
  · norm_num [div, F64.isZero]

end EffRust
